import Mathlib

set_option maxRecDepth 8192

/-!
Shallow embedding of the `madlib::dbconnector::mainmem::Allocator` layer
(`Allocator_impl.hpp`) and proofs about its allocation operations.

Addresses are modelled as natural numbers, with `0` playing the role of the
null pointer.  `size_t` arithmetic wraps modulo `2 ^ 64`, written explicitly.
The host memory primitive (the `alloc` member of `Allocator`) is modelled as a
record of functions, and every Allocator operation returns, next to its
result, the list of host-primitive invocations it issued, so that claims
about "zero host calls" and requested byte counts are statable.
-/

/-- Machine word modulus: `size_t` arithmetic is modulo `2 ^ 64`. -/
def wordSize : Nat := 2 ^ 64

/-- dbal::MemoryContext policy enumeration. -/
inductive MemoryContext
  | FunctionContext
  | AggregateContext
deriving DecidableEq

/-- dbal::ZeroMemory policy enumeration. -/
inductive ZeroMemory
  | DoZero
  | DoNotZero
deriving DecidableEq

/-- dbal::OnMemoryAllocationFailure policy enumeration. -/
inductive OnMemoryAllocationFailure
  | ReturnNULL
  | ThrowBadAlloc
deriving DecidableEq

/-- Failure signal of the allocation path (std::bad_alloc / AllocationError). -/
inductive AllocError
  | badAlloc
deriving DecidableEq

/-- Host-specific failure signal raised by the host primitive. -/
inductive HostSignal
  | raised
deriving DecidableEq

/-- The host memory primitive (the `alloc` member of `Allocator`): raw
`Allocate`, `Realloc` and the behaviour of `Free` (whether it raises a
host signal on a given pointer).  A returned address `0` models NULL. -/
structure HostPrimitive where
  Allocate : Nat → Nat
  Realloc : Nat → Nat → Nat
  freeRaises : Nat → Bool

/-- One invocation of the host primitive, as recorded in a call trace. -/
inductive HostCall
  | allocateCall : Nat → HostCall
  | reallocCall : Nat → Nat → HostCall
  | freeCall : Nat → HostCall
deriving DecidableEq

instance {ε α : Type} [DecidableEq ε] [DecidableEq α] : DecidableEq (Except ε α) :=
  fun a b =>
    match a, b with
    | Except.ok x, Except.ok y =>
        if h : x = y then isTrue (by rw [h])
        else isFalse (fun hh => h (Except.ok.inj hh))
    | Except.ok _, Except.error _ => isFalse (fun hh => Except.noConfusion hh)
    | Except.error _, Except.ok _ => isFalse (fun hh => Except.noConfusion hh)
    | Except.error x, Except.error y =>
        if h : x = y then isTrue (by rw [h])
        else isFalse (fun hh => h (Except.error.inj hh))

/-- Modelled from the spec: the per-dimension metadata entry size of the array
header (`H(D) = fixed-overhead + D × per-dimension-metadata-size`).  The
entries are C `int`s (the source writes them through `static_cast<int>`),
modelled as 4 bytes.  The numeric value is not given under `src/`. -/
def perDimensionMetadataSize : Nat := 4

/-- Modelled from the spec: `sizeof(ArrayType)` — the size of the fixed
header struct (the spec's "fixed overhead"); the struct definition is not
under `src/`.  Modelled as 24 bytes. -/
def sizeofArrayType : Nat := 24

/-- Modelled from the spec: the `ARR_OVERHEAD_NONULLS` macro, i.e. the header
size `H(D) = fixed-overhead + D × per-dimension-metadata-size` for an array
without nulls; the macro itself is not under `src/`. -/
def ARR_OVERHEAD_NONULLS (d : Nat) : Nat :=
  sizeofArrayType + d * perDimensionMetadataSize

/-- `static_cast<int>` applied to a `std::size_t` value: two's-complement
reduction to 32 bits. -/
def toInt32 (n : Nat) : Int :=
  if n % 2 ^ 32 < 2 ^ 31 then ((n % 2 ^ 32 : Nat) : Int)
  else ((n % 2 ^ 32 : Nat) : Int) - 2 ^ 32

/-- The `ArrayType` header as written by `internalAllocateArray`:
`len` is assigned `numElements`, `ndims` the dimensionality, the payload
pointer `ptr` is recorded as its offset from the block start
(`(void*) &array[1]`, i.e. `sizeof(ArrayType)`), and `dims` is the
`ARR_DIMS` table of C `int` entries. -/
structure ArrayType where
  len : Nat
  ndims : Nat
  ptrOffset : Nat
  dims : List Int
deriving DecidableEq

/-- `MutableArrayHandle<T>`: the handle wraps the array block. -/
structure MutableArrayHandle where
  blockAddr : Nat
  header : ArrayType
deriving DecidableEq

/-- Modelled from the spec: `MutableByteString(ptr, n)` — the handle type
`{pointer to header, payload pointer = header + kEffectiveHeaderSize,
payload length}`; its constructor is not under `src/`, so, following the
spec's data model, the second constructor argument is the recorded payload
length. -/
structure MutableByteString where
  blockAddr : Nat
  payloadLength : Nat
deriving DecidableEq

/-- Modelled from the spec: `ByteString::kEffectiveHeaderSize`, the fixed
byte-string header size; its numeric value is not under `src/`, modelled
as 8. -/
def ByteString.kEffectiveHeaderSize : Nat := 8

/-- `Allocator::allocate<MC, ZM, F>(inSize)`: the body is exactly
`return alloc.Allocate(inSize);` — it forwards to the host primitive,
ignores all three policy parameters, performs no alignment adjustment and
can itself raise nothing. -/
def Allocator.allocate (MC : MemoryContext) (ZM : ZeroMemory)
    (F : OnMemoryAllocationFailure) (alloc : HostPrimitive) (inSize : Nat) :
    Except AllocError Nat × List HostCall :=
  (Except.ok (alloc.Allocate inSize), [HostCall.allocateCall inSize])

/-- `Allocator::reallocate<MC, ZM, F>(inPtr, inSize)`: the body is exactly
`return alloc.Realloc(inPtr, inSize);`. -/
def Allocator.reallocate (MC : MemoryContext) (ZM : ZeroMemory)
    (F : OnMemoryAllocationFailure) (alloc : HostPrimitive)
    (inPtr inSize : Nat) : Except AllocError Nat × List HostCall :=
  (Except.ok (alloc.Realloc inPtr inSize), [HostCall.reallocCall inPtr inSize])

/-- `Allocator::free<MC>(inPtr)`: returns immediately on NULL, otherwise
calls `alloc.Free(inPtr)` directly; there is no surrounding catch, so a
host signal raised by `Free` propagates out of `free`. -/
def Allocator.free (MC : MemoryContext) (alloc : HostPrimitive) (inPtr : Nat) :
    Except HostSignal Unit × List HostCall :=
  if inPtr = 0 then (Except.ok (), [])
  else
    ((if alloc.freeRaises inPtr then Except.error HostSignal.raised
      else Except.ok ()),
     [HostCall.freeCall inPtr])

/-- `Allocator::internalAllocateArray<T, Dimensions, MC, ZM, F>(inNumElements)`:
`numElements` starts at `Dimensions ? 1 : 0` and is multiplied by each
dimension size in `size_t` arithmetic (no overflow check: the check of the
commented-out lines 80–84 is absent); `size = sizeof(T) * numElements +
ARR_OVERHEAD_NONULLS(Dimensions)` in `size_t` arithmetic; then
`allocate<MC, dbal::DoZero, F>(size)` is called (the caller's `ZM` is
ignored) and the header fields are written: `len = numElements`,
`ndims = Dimensions`, `ptr = (void*) &array[1]`,
`ARR_DIMS(array)[i] = static_cast<int>(inNumElements[i])` in order. -/
def Allocator.internalAllocateArray (sizeofT : Nat) (MC : MemoryContext)
    (ZM : ZeroMemory) (F : OnMemoryAllocationFailure) (alloc : HostPrimitive)
    (inNumElements : List Nat) :
    Except AllocError MutableArrayHandle × List HostCall :=
  let Dimensions := inNumElements.length
  let numElements :=
    List.foldl (fun a b => a * b % wordSize)
      (if Dimensions = 0 then 0 else 1) inNumElements
  let size :=
    (sizeofT * numElements % wordSize + ARR_OVERHEAD_NONULLS Dimensions)
      % wordSize
  let r := Allocator.allocate MC ZeroMemory.DoZero F alloc size
  (r.fst.map (fun p =>
    { blockAddr := p
      header :=
        { len := numElements
          ndims := Dimensions
          ptrOffset := sizeofArrayType
          dims := inNumElements.map toInt32 } }), r.snd)

/-- `Allocator::allocateArray<T>(dims...)`: the public wrapper instantiates
`internalAllocateArray` with the default policies `dbal::FunctionContext`,
`dbal::DoZero`, `dbal::ThrowBadAlloc`. -/
def Allocator.allocateArray (sizeofT : Nat) (alloc : HostPrimitive)
    (inNumElements : List Nat) :
    Except AllocError MutableArrayHandle × List HostCall :=
  Allocator.internalAllocateArray sizeofT MemoryContext.FunctionContext
    ZeroMemory.DoZero OnMemoryAllocationFailure.ThrowBadAlloc alloc
    inNumElements

/-- `Allocator::allocateByteString<MC, ZM, F>(inSize)`: calls
`allocate<MC, dbal::DoZero, F>(ByteString::kEffectiveHeaderSize + inSize)`
and returns `MutableByteString(byteString, ByteString::kEffectiveHeaderSize
+ inSize)` — the second constructor argument is the header-inclusive size,
not `inSize`. -/
def Allocator.allocateByteString (MC : MemoryContext) (ZM : ZeroMemory)
    (F : OnMemoryAllocationFailure) (alloc : HostPrimitive) (inSize : Nat) :
    Except AllocError MutableByteString × List HostCall :=
  let sz := (ByteString.kEffectiveHeaderSize + inSize) % wordSize
  let r := Allocator.allocate MC ZeroMemory.DoZero F alloc sz
  (r.fst.map (fun p => { blockAddr := p, payloadLength := sz }), r.snd)

/-- Modelled from the spec: a dimension-size tuple together with an element
size is *valid* when every dimension size is representable in `size_t`,
every running product of the sizes is representable, and the total byte
size `H(D) + N × E` is representable. -/
def validDims (sizeofT : Nat) (dims : List Nat) : Prop :=
  (∀ d ∈ dims, d < wordSize) ∧
  List.foldl
    (fun acc d =>
      if wordSize ≤ acc * d ∨ acc = wordSize then wordSize else acc * d)
    (if dims.length = 0 then 0 else 1) dims < wordSize ∧
  sizeofT * (if dims.length = 0 then 0 else dims.prod)
    + ARR_OVERHEAD_NONULLS dims.length < wordSize

/-- A host primitive that always succeeds, returning block address 4096. -/
def okHost : HostPrimitive where
  Allocate := fun _ => 4096
  Realloc := fun _ _ => 4096
  freeRaises := fun _ => false

/-- A host primitive whose raw allocate returns the 1-byte-aligned
address 17 for every request. -/
def oddHost : HostPrimitive where
  Allocate := fun _ => 17
  Realloc := fun _ _ => 17
  freeRaises := fun _ => false

/-- A host primitive that fails every allocation by returning NULL. -/
def failingHost : HostPrimitive where
  Allocate := fun _ => 0
  Realloc := fun _ _ => 0
  freeRaises := fun _ => false

/-- A host primitive whose `Free` raises a host signal on every pointer. -/
def raisingHost : HostPrimitive where
  Allocate := fun _ => 4096
  Realloc := fun _ _ => 4096
  freeRaises := fun _ => true

theorem wordSize_pos : 0 < wordSize := by norm_num [wordSize]

theorem one_lt_wordSize : 1 < wordSize := by norm_num [wordSize]

/-- Folding `size_t` multiplication over a list equals the true product
reduced modulo the word size. -/
theorem foldl_mulMod (l : List Nat) : ∀ init : Nat, init < wordSize →
    List.foldl (fun a b => a * b % wordSize) init l = init * l.prod % wordSize := by
  induction l with
  | nil =>
      intro init h
      simp [Nat.mod_eq_of_lt h]
  | cons x xs ih =>
      intro init h
      simp only [List.foldl_cons, List.prod_cons]
      rw [ih (init * x % wordSize) (Nat.mod_lt _ wordSize_pos)]
      rw [Nat.mod_mul_mod, Nat.mul_assoc]

/-- The `numElements` loop computes the exact element count whenever the
true product is representable. -/
theorem numElements_eq (dims : List Nat) (hlt : dims.prod < wordSize) :
    List.foldl (fun a b => a * b % wordSize)
      (if dims.length = 0 then 0 else 1) dims
      = (if dims.length = 0 then 0 else dims.prod) := by
  cases dims with
  | nil => simp
  | cons d ds =>
      rw [List.length_cons, if_neg (Nat.succ_ne_zero _),
        if_neg (Nat.succ_ne_zero _),
        foldl_mulMod (d :: ds) 1 one_lt_wordSize, Nat.one_mul,
        Nat.mod_eq_of_lt hlt]

/-- `toInt32` is the identity on values below `2 ^ 31`. -/
theorem toInt32_eq_of_lt {n : Nat} (h : n < 2 ^ 31) : toInt32 n = (n : Int) := by
  unfold toInt32
  have h32 : n < 2 ^ 32 := lt_trans h (by norm_num)
  rw [Nat.mod_eq_of_lt h32, if_pos h]

/-- The result component of `internalAllocateArray`, written out. -/
theorem internalAllocateArray_fst (sizeofT : Nat) (MC : MemoryContext)
    (ZM : ZeroMemory) (F : OnMemoryAllocationFailure) (alloc : HostPrimitive)
    (dims : List Nat) :
    (Allocator.internalAllocateArray sizeofT MC ZM F alloc dims).fst =
      Except.ok
        { blockAddr :=
            alloc.Allocate
              ((sizeofT *
                  (List.foldl (fun a b => a * b % wordSize)
                    (if dims.length = 0 then 0 else 1) dims) % wordSize
                + ARR_OVERHEAD_NONULLS dims.length) % wordSize)
          header :=
            { len :=
                List.foldl (fun a b => a * b % wordSize)
                  (if dims.length = 0 then 0 else 1) dims
              ndims := dims.length
              ptrOffset := sizeofArrayType
              dims := dims.map toInt32 } } := rfl

/-- The host-call trace of `internalAllocateArray`, written out. -/
theorem internalAllocateArray_snd (sizeofT : Nat) (MC : MemoryContext)
    (ZM : ZeroMemory) (F : OnMemoryAllocationFailure) (alloc : HostPrimitive)
    (dims : List Nat) :
    (Allocator.internalAllocateArray sizeofT MC ZM F alloc dims).snd =
      [HostCall.allocateCall
        ((sizeofT *
            (List.foldl (fun a b => a * b % wordSize)
              (if dims.length = 0 then 0 else 1) dims) % wordSize
          + ARR_OVERHEAD_NONULLS dims.length) % wordSize)] := rfl

/-- C8: `Allocator::free` applied to a null pointer is a no-op: it returns
immediately, raises nothing, and issues no host-primitive invocation. -/
theorem c8_free_null_noop (MC : MemoryContext) (alloc : HostPrimitive) :
    Allocator.free MC alloc 0 = (Except.ok (), []) := rfl

/-- C10: the compile-time policy parameters have no observable effect:
`allocate`, `reallocate` and `free` behave identically for any two choices
of MemoryContext / ZeroMemory / OnMemoryAllocationFailure, and
`internalAllocateArray` / `allocateByteString` coincide, for any caller
ZeroMemory choice, with their instantiation at `DoZero` (they pass
`dbal::DoZero` to `allocate` unconditionally). -/
theorem c10_policies_no_effect (MC MC' : MemoryContext) (ZM ZM' : ZeroMemory)
    (F F' : OnMemoryAllocationFailure) (alloc : HostPrimitive)
    (s p sizeofT : Nat) (dims : List Nat) :
    Allocator.allocate MC ZM F alloc s = Allocator.allocate MC' ZM' F' alloc s ∧
    Allocator.reallocate MC ZM F alloc p s
      = Allocator.reallocate MC' ZM' F' alloc p s ∧
    Allocator.free MC alloc p = Allocator.free MC' alloc p ∧
    Allocator.internalAllocateArray sizeofT MC ZM F alloc dims
      = Allocator.internalAllocateArray sizeofT MC' ZeroMemory.DoZero F' alloc dims ∧
    Allocator.allocateByteString MC ZM F alloc s
      = Allocator.allocateByteString MC' ZeroMemory.DoZero F' alloc s :=
  ⟨rfl, rfl, rfl, rfl, rfl⟩

/-- C3 (code evaluation): `allocate` performs no alignment adjustment: on a
host primitive whose raw allocate returns the 1-byte-aligned address 17,
`allocate(32)` returns 17, which is not on a 16-byte boundary. -/
theorem c3_alignment_not_enforced :
    (Allocator.allocate MemoryContext.FunctionContext ZeroMemory.DoZero
        OnMemoryAllocationFailure.ThrowBadAlloc oddHost 32).fst
      = Except.ok 17 ∧
    17 % 16 ≠ 0 := ⟨rfl, by decide⟩

/-- C4 (code evaluation): `free(42)` on a host primitive whose `Free`
raises lets the host signal propagate out of `Allocator::free` (the
neutralizing catch is absent from the code). -/
theorem c4_free_propagates_host_signal :
    (Allocator.free MemoryContext.FunctionContext raisingHost 42).fst
      = Except.error HostSignal.raised ∧
    (Allocator.free MemoryContext.FunctionContext raisingHost 42).snd
      = [HostCall.freeCall 42] := ⟨rfl, rfl⟩

/-- C9 (counterexample): under the ThrowBadAlloc (ThrowOnFailure) policy, a
host allocation failure does not raise AllocationError: `allocate` returns
the host's null result unchanged. -/
theorem c9_counterexample :
    (Allocator.allocate MemoryContext.FunctionContext ZeroMemory.DoZero
        OnMemoryAllocationFailure.ThrowBadAlloc failingHost 64).fst
      = Except.ok 0 ∧
    (Except.ok 0 : Except AllocError Nat) ≠ Except.error AllocError.badAlloc :=
  ⟨rfl, fun h => Except.noConfusion h⟩

/-- C9 (amended): on a host allocation failure, `allocate` and `reallocate`
return a null result and raise no error under every policy choice — the
OnFailure policy parameter is ignored, so ThrowOnFailure never raises
AllocationError. -/
theorem c9_policy_ignored_on_failure (MC : MemoryContext) (ZM : ZeroMemory)
    (F : OnMemoryAllocationFailure) (alloc : HostPrimitive) (s p : Nat)
    (hA : alloc.Allocate s = 0) (hR : alloc.Realloc p s = 0) :
    (Allocator.allocate MC ZM F alloc s).fst = Except.ok 0 ∧
    (Allocator.reallocate MC ZM F alloc p s).fst = Except.ok 0 := by
  constructor
  · simp [Allocator.allocate, hA]
  · simp [Allocator.reallocate, hR]

/-- C9 (witness): the amended statement at the failing host, size 64,
pointer 7, policy ThrowBadAlloc. -/
theorem c9_policy_ignored_on_failure_witness :
    (Allocator.allocate MemoryContext.AggregateContext ZeroMemory.DoNotZero
        OnMemoryAllocationFailure.ThrowBadAlloc failingHost 64).fst
      = Except.ok 0 ∧
    (Allocator.reallocate MemoryContext.AggregateContext ZeroMemory.DoNotZero
        OnMemoryAllocationFailure.ThrowBadAlloc failingHost 7 64).fst
      = Except.ok 0 :=
  c9_policy_ignored_on_failure MemoryContext.AggregateContext
    ZeroMemory.DoNotZero OnMemoryAllocationFailure.ThrowBadAlloc
    failingHost 64 7 rfl rfl

/-- C1 (code evaluation): for `sizeof(T) = 8` and the single dimension
`2 ^ 63`, the true byte size `8 * 2 ^ 63 = 2 ^ 66` exceeds the maximum
`size_t`, yet `internalAllocateArray` raises no OverflowError and issues
one host allocate call, with the wrapped size `ARR_OVERHEAD_NONULLS(1)`:
the overflow check is absent from the code. -/
theorem c1_overflow_unchecked :
    (Allocator.internalAllocateArray 8 MemoryContext.FunctionContext
        ZeroMemory.DoZero OnMemoryAllocationFailure.ThrowBadAlloc okHost
        [2 ^ 63]).snd
      = [HostCall.allocateCall (ARR_OVERHEAD_NONULLS 1)] ∧
    (Allocator.internalAllocateArray 8 MemoryContext.FunctionContext
        ZeroMemory.DoZero OnMemoryAllocationFailure.ThrowBadAlloc okHost
        [2 ^ 63]).fst
      = Except.ok
          { blockAddr := 4096
            header :=
              { len := 2 ^ 63, ndims := 1, ptrOffset := 24, dims := [0] } } ∧
    wordSize ≤ 8 * 2 ^ 63 := by
  refine ⟨?_, ?_, ?_⟩
  · rfl
  · rfl
  · norm_num [wordSize]

/-- C2: for every dimensionality and dimension sizes whose true byte size is
representable, `internalAllocateArray` computes the element count `N` as the
product of the sizes (`0` when there are no dimensions) and issues exactly
one host allocate call requesting `ARR_OVERHEAD_NONULLS(D) + N * sizeof(T)`
bytes, with the computed element count recorded in the header. -/
theorem c2_requested_size_exact (sizeofT : Nat) (hT : 0 < sizeofT)
    (MC : MemoryContext) (ZM : ZeroMemory) (F : OnMemoryAllocationFailure)
    (alloc : HostPrimitive) (dims : List Nat)
    (hfit : sizeofT * (if dims.length = 0 then 0 else dims.prod)
        + ARR_OVERHEAD_NONULLS dims.length < wordSize) :
    (Allocator.internalAllocateArray sizeofT MC ZM F alloc dims).snd =
      [HostCall.allocateCall (ARR_OVERHEAD_NONULLS dims.length
        + (if dims.length = 0 then 0 else dims.prod) * sizeofT)] ∧
    (∀ h, (Allocator.internalAllocateArray sizeofT MC ZM F alloc dims).fst
        = Except.ok h →
      h.header.len = (if dims.length = 0 then 0 else dims.prod)) := by
  have hmul : sizeofT * (if dims.length = 0 then 0 else dims.prod) < wordSize :=
    lt_of_le_of_lt (Nat.le_add_right _ _) hfit
  have hprodlt : dims.prod < wordSize := by
    rcases Nat.eq_zero_or_pos dims.length with h0 | hpos
    · rw [List.length_eq_zero] at h0
      subst h0
      simpa using one_lt_wordSize
    · have hne : dims.length ≠ 0 := Nat.pos_iff_ne_zero.mp hpos
      rw [if_neg hne] at hmul
      calc dims.prod ≤ sizeofT * dims.prod := Nat.le_mul_of_pos_left _ hT
        _ < wordSize := hmul
  have hN := numElements_eq dims hprodlt
  constructor
  · rw [internalAllocateArray_snd, hN]
    have hsize : sizeofT * (if dims.length = 0 then 0 else dims.prod)
        % wordSize
        = sizeofT * (if dims.length = 0 then 0 else dims.prod) :=
      Nat.mod_eq_of_lt hmul
    rw [hsize, Nat.mod_eq_of_lt hfit, Nat.add_comm, Nat.mul_comm]
  · intro h hh
    rw [internalAllocateArray_fst] at hh
    have hh2 := (Except.ok.inj hh).symm
    subst hh2
    exact hN

/-- C2 (witness): the statement at `sizeof(T) = 4`, dimensions `(3, 4)`,
an always-succeeding host and the default policies. -/
theorem c2_requested_size_exact_witness :
    (Allocator.internalAllocateArray 4 MemoryContext.FunctionContext
        ZeroMemory.DoZero OnMemoryAllocationFailure.ThrowBadAlloc okHost
        [3, 4]).snd =
      [HostCall.allocateCall (ARR_OVERHEAD_NONULLS [3, 4].length
        + (if [3, 4].length = 0 then 0 else [3, 4].prod) * 4)] ∧
    (∀ h, (Allocator.internalAllocateArray 4 MemoryContext.FunctionContext
        ZeroMemory.DoZero OnMemoryAllocationFailure.ThrowBadAlloc okHost
        [3, 4]).fst = Except.ok h →
      h.header.len = (if [3, 4].length = 0 then 0 else [3, 4].prod)) :=
  c2_requested_size_exact 4 (by decide) MemoryContext.FunctionContext
    ZeroMemory.DoZero OnMemoryAllocationFailure.ThrowBadAlloc okHost [3, 4]
    (by decide)

/-- C5 (counterexample): the dimension tuple `(2 ^ 31)` is valid for element
size 1 (its byte size is representable), yet the recorded per-dimension
size table contains `static_cast<int>(2 ^ 31) = -2 ^ 31`, not `2 ^ 31`:
the entries do not exactly equal the caller's dimension arguments. -/
theorem c5_counterexample :
    validDims 1 [2 ^ 31] ∧
    (Allocator.internalAllocateArray 1 MemoryContext.FunctionContext
        ZeroMemory.DoZero OnMemoryAllocationFailure.ThrowBadAlloc okHost
        [2 ^ 31]).fst =
      Except.ok
        { blockAddr := 4096
          header :=
            { len := 2 ^ 31, ndims := 1, ptrOffset := 24,
              dims := [-(2 ^ 31)] } } ∧
    (-(2 ^ 31) : Int) ≠ ((2 ^ 31 : Nat) : Int) := by
  refine ⟨⟨?_, ?_, ?_⟩, ?_, ?_⟩
  · decide
  · decide
  · decide
  · rfl
  · decide

/-- C5 (amended): `internalAllocateArray` records a dimensionality equal to
the number of dimension arguments, and a per-dimension size table whose
entries are the arguments reduced to signed 32-bit integers, in the caller's
order; when every argument is below `2 ^ 31` the entries exactly equal the
arguments. -/
theorem c5_dims_recorded (sizeofT : Nat) (MC : MemoryContext)
    (ZM : ZeroMemory) (F : OnMemoryAllocationFailure) (alloc : HostPrimitive)
    (dims : List Nat) (hsmall : ∀ d ∈ dims, d < 2 ^ 31) :
    ∀ h, (Allocator.internalAllocateArray sizeofT MC ZM F alloc dims).fst
        = Except.ok h →
      h.header.ndims = dims.length ∧
      h.header.dims = dims.map (fun d : Nat => (d : Int)) := by
  intro h hh
  rw [internalAllocateArray_fst] at hh
  have hh2 := (Except.ok.inj hh).symm
  subst hh2
  refine ⟨rfl, ?_⟩
  show dims.map toInt32 = dims.map (fun d : Nat => (d : Int))
  exact List.map_congr_left (fun d hd => toInt32_eq_of_lt (hsmall d hd))

/-- C5 (witness): the amended statement at `sizeof(T) = 4`, dimensions
`(3, 4)` and the default policies. -/
theorem c5_dims_recorded_witness :
    ({ blockAddr := 4096
       header := { len := 12, ndims := 2, ptrOffset := 24, dims := [3, 4] } }
      : MutableArrayHandle).header.ndims = [3, 4].length ∧
    ({ blockAddr := 4096
       header := { len := 12, ndims := 2, ptrOffset := 24, dims := [3, 4] } }
      : MutableArrayHandle).header.dims = [3, 4].map (fun d : Nat => (d : Int)) :=
  c5_dims_recorded 4 MemoryContext.FunctionContext ZeroMemory.DoZero
    OnMemoryAllocationFailure.ThrowBadAlloc okHost [3, 4] (by decide)
    { blockAddr := 4096
      header := { len := 12, ndims := 2, ptrOffset := 24, dims := [3, 4] } }
    rfl

/-- C6 (counterexample): for the one-dimensional request `(5)` with
`sizeof(T) = 4`, the recorded payload pointer offset is `sizeof(ArrayType)`
(the code writes `ptr = (void*) &array[1]`), which differs from the full
header size `H(1) = ARR_OVERHEAD_NONULLS(1)`: the payload does not begin
after the dimension table. -/
theorem c6_counterexample :
    (Allocator.internalAllocateArray 4 MemoryContext.FunctionContext
        ZeroMemory.DoZero OnMemoryAllocationFailure.ThrowBadAlloc okHost
        [5]).fst =
      Except.ok
        { blockAddr := 4096
          header := { len := 5, ndims := 1, ptrOffset := 24, dims := [5] } } ∧
    (24 : Nat) ≠ ARR_OVERHEAD_NONULLS 1 := ⟨rfl, by decide⟩

/-- C6 (amended): for every request, the payload pointer recorded by
`internalAllocateArray` is block start plus the fixed struct overhead
`sizeof(ArrayType)`, independent of the dimensionality; it coincides with
the header size `H(D)` only for `D = 0`. -/
theorem c6_payload_offset_fixed (sizeofT : Nat) (MC : MemoryContext)
    (ZM : ZeroMemory) (F : OnMemoryAllocationFailure) (alloc : HostPrimitive)
    (dims : List Nat) :
    ∀ h, (Allocator.internalAllocateArray sizeofT MC ZM F alloc dims).fst
        = Except.ok h →
      h.header.ptrOffset = sizeofArrayType ∧
      sizeofArrayType = ARR_OVERHEAD_NONULLS 0 := by
  intro h hh
  rw [internalAllocateArray_fst] at hh
  have hh2 := (Except.ok.inj hh).symm
  subst hh2
  exact ⟨rfl, by decide⟩

/-- C6 (witness): the amended statement at `sizeof(T) = 4`, dimensions
`(5)` and the default policies. -/
theorem c6_payload_offset_fixed_witness :
    ({ blockAddr := 4096
       header := { len := 5, ndims := 1, ptrOffset := 24, dims := [5] } }
      : MutableArrayHandle).header.ptrOffset = sizeofArrayType ∧
    sizeofArrayType = ARR_OVERHEAD_NONULLS 0 :=
  c6_payload_offset_fixed 4 MemoryContext.FunctionContext ZeroMemory.DoZero
    OnMemoryAllocationFailure.ThrowBadAlloc okHost [5]
    { blockAddr := 4096
      header := { len := 5, ndims := 1, ptrOffset := 24, dims := [5] } }
    rfl

/-- C7 (counterexample): `allocateByteString(0)` returns a handle whose
recorded payload length is `kEffectiveHeaderSize`, not `0`: the code hands
the header-inclusive size to the handle constructor. -/
theorem c7_counterexample :
    (Allocator.allocateByteString MemoryContext.FunctionContext
        ZeroMemory.DoZero OnMemoryAllocationFailure.ThrowBadAlloc okHost
        0).fst =
      Except.ok
        { blockAddr := 4096,
          payloadLength := ByteString.kEffectiveHeaderSize } ∧
    ByteString.kEffectiveHeaderSize ≠ 0 := ⟨rfl, by decide⟩

/-- C7 (amended): `allocateByteString(s)` requests exactly
`kEffectiveHeaderSize + s` bytes from `allocate` (so `allocateByteString(0)`
has total block size exactly `kEffectiveHeaderSize`), but the handle's
recorded payload length is `kEffectiveHeaderSize + s`, not `s`. -/
theorem c7_bytestring_size (MC : MemoryContext) (ZM : ZeroMemory)
    (F : OnMemoryAllocationFailure) (alloc : HostPrimitive) (inSize : Nat)
    (hfit : ByteString.kEffectiveHeaderSize + inSize < wordSize) :
    (Allocator.allocateByteString MC ZM F alloc inSize).snd =
      [HostCall.allocateCall (ByteString.kEffectiveHeaderSize + inSize)] ∧
    (∀ b, (Allocator.allocateByteString MC ZM F alloc inSize).fst
        = Except.ok b →
      b.payloadLength = ByteString.kEffectiveHeaderSize + inSize) := by
  have hsz : (ByteString.kEffectiveHeaderSize + inSize) % wordSize
      = ByteString.kEffectiveHeaderSize + inSize := Nat.mod_eq_of_lt hfit
  constructor
  · show [HostCall.allocateCall
        ((ByteString.kEffectiveHeaderSize + inSize) % wordSize)] = _
    rw [hsz]
  · intro b hb
    have : (Allocator.allocateByteString MC ZM F alloc inSize).fst =
        Except.ok
          { blockAddr :=
              alloc.Allocate ((ByteString.kEffectiveHeaderSize + inSize)
                % wordSize)
            payloadLength :=
              (ByteString.kEffectiveHeaderSize + inSize) % wordSize } := rfl
    rw [this] at hb
    have hb2 := (Except.ok.inj hb).symm
    subst hb2
    exact hsz

/-- C7 (witness): the amended statement at `inSize = 5` with the default
policies and an always-succeeding host. -/
theorem c7_bytestring_size_witness :
    (Allocator.allocateByteString MemoryContext.FunctionContext
        ZeroMemory.DoZero OnMemoryAllocationFailure.ThrowBadAlloc okHost
        5).snd =
      [HostCall.allocateCall (ByteString.kEffectiveHeaderSize + 5)] ∧
    (∀ b, (Allocator.allocateByteString MemoryContext.FunctionContext
        ZeroMemory.DoZero OnMemoryAllocationFailure.ThrowBadAlloc okHost
        5).fst = Except.ok b →
      b.payloadLength = ByteString.kEffectiveHeaderSize + 5) :=
  c7_bytestring_size MemoryContext.FunctionContext ZeroMemory.DoZero
    OnMemoryAllocationFailure.ThrowBadAlloc okHost 5 (by decide)
